import Mathlib

/-!
Verification development for a small Express/MariaDB CRUD service
(customer / agent / company resources).  The JavaScript route handlers of
`server.js` and its two sibling variants are shallowly embedded as pure
Lean functions over an explicit table state; the MariaDB statements the
handlers issue (parameterized INSERT / UPDATE / DELETE / SELECT ... LIKE)
are given their standard semantics over an association-list table model,
and the express-validator rule chains declared on each route are embedded
as executable check lists.
-/

namespace A6

/-- JavaScript runtime values as they occur in request bodies and JSON
responses: strings, numbers, BigInt, null/undefined, booleans, plain
objects and arrays. -/
inductive JsValue where
  | vUndefined : JsValue
  | vNull : JsValue
  | vBool : Bool → JsValue
  | vNum : Int → JsValue
  | vBigInt : Int → JsValue
  | vStr : String → JsValue
  | vObj : List (String × JsValue) → JsValue
  | vArr : List JsValue → JsValue

/-- A JavaScript object, as an association list of own enumerable
properties in insertion order. -/
abbrev JsObj := List (String × JsValue)

/-- Property read `obj[k]`: absent properties read as `undefined`. -/
def bodyGet (o : JsObj) (k : String) : JsValue :=
  match o with
  | [] => JsValue.vUndefined
  | (k', v) :: rest => if k' = k then v else bodyGet rest k

/-- Property read on a `JsValue`, used to inspect response bodies. -/
def jsonLookup (v : JsValue) (k : String) : JsValue :=
  match v with
  | JsValue.vObj fs => bodyGet fs k
  | _ => JsValue.vUndefined

/-- Returns `true` exactly on JavaScript string values. -/
def JsValue.isStr : JsValue → Bool
  | JsValue.vStr _ => true
  | _ => false

/-- SQL scalar values stored in table cells. -/
inductive SqlValue where
  | sNull : SqlValue
  | sStr : String → SqlValue
  | sNum : Int → SqlValue
deriving Repr, DecidableEq

/-- A table row: column name to stored scalar, in column order. -/
abbrev Row := List (String × SqlValue)

/-- A table: rows in physical order. -/
abbrev Table := List Row

/-- Read a column of a row (absent column reads NULL). -/
def rowLookup (r : Row) (c : String) : SqlValue :=
  match r with
  | [] => SqlValue.sNull
  | (c', v) :: rest => if c' = c then v else rowLookup rest c

/-- The character `'0' + d`. -/
def digitChar (d : Nat) : Char := Char.ofNat (48 + d)

/-- Decimal digit list of a natural number, most significant first;
models the digit sequence produced by JavaScript `toString(10)`. -/
def decList (n : Nat) : List Char :=
  if h : n < 10 then [digitChar n]
  else decList (n / 10) ++ [digitChar (n % 10)]
termination_by n
decreasing_by
  exact Nat.div_lt_self (Nat.lt_of_lt_of_le (by norm_num) (Nat.le_of_not_lt h)) (by norm_num)

/-- Decimal string of a natural number (JavaScript `Number`/`BigInt`
`toString(10)` on a non-negative value). -/
def decStr (n : Nat) : String := String.mk (decList n)

/-- JavaScript `BigInt.prototype.toString(10)`. -/
def jsBigIntToString (n : Int) : String :=
  if n < 0 then String.mk ('-' :: decList n.natAbs) else String.mk (decList n.toNat)

/-- Value denoted by a list of decimal digit characters. -/
def decodeDecL (s : List Char) : Nat :=
  s.foldl (fun a c => a * 10 + (c.toNat - 48)) 0

/-- Value denoted by a decimal string with optional leading minus sign. -/
def jsBigIntDecode (s : String) : Int :=
  match s.data with
  | [] => 0
  | c :: cs => if c = '-' then -(decodeDecL cs : Int) else (decodeDecL (c :: cs) : Int)

/-- Decimal string of an integer (JavaScript `toString(10)`). -/
def intToString (n : Int) : String := jsBigIntToString n

/-! ## express-validator embedding

Each route declares a list of validation chains
(`body('F').isString().notEmpty()`, `param('id').isInt()`, ...).  A chain
names a request location and field, carries a list of standard checks,
and may be marked `optional()` (skipped when the value is `undefined`).
Standard validators coerce the value to a string first (`undefined` and
`null` coerce to the empty string); `isString` alone tests the actual
runtime type.  Every failing check contributes one error record, and
`validationResult(req).array()` returns all of them. -/

/-- The checks used by the routes of this repository. -/
inductive Check where
  | isString : Check
  | isDecimal : Check
  | isInt : Check
  | notEmpty : Check
deriving Repr, DecidableEq

/-- Request location a rule reads from. -/
inductive Loc where
  | locBody : Loc
  | locParam : Loc
deriving Repr, DecidableEq

/-- One declared validation chain. -/
structure Rule where
  loc : Loc
  field : String
  checks : List Check
  opt : Bool
deriving Repr, DecidableEq

/-- One entry of `validationResult(req).array()`. -/
structure FieldError where
  location : String
  path : String
  msg : String
deriving Repr, DecidableEq

/-- An incoming HTTP request: path parameters and parsed JSON body. -/
structure Request where
  params : List (String × String)
  body : JsObj

/-- The string-coercion express-validator applies before running a
standard (string-based) validator. -/
def toStrJs : JsValue → String
  | JsValue.vUndefined => ""
  | JsValue.vNull => ""
  | JsValue.vBool b => if b then "true" else "false"
  | JsValue.vNum n => intToString n
  | JsValue.vBigInt n => jsBigIntToString n
  | JsValue.vStr s => s
  | JsValue.vObj _ => "[object Object]"
  | JsValue.vArr _ => ""

/-- Drop one leading sign character. -/
def stripSign : List Char → List Char
  | [] => []
  | c :: cs => if c = '+' ∨ c = '-' then cs else c :: cs

/-- validator.js `isDecimal` (default options): optional sign, optional
integer digits, optional fractional part with at least one digit, and at
least one digit overall. -/
def isDecimalStr (s : List Char) : Bool :=
  let t := stripSign s
  let ds := t.takeWhile Char.isDigit
  let rest := t.drop ds.length
  match rest with
  | [] => !ds.isEmpty
  | c :: fs => c = '.' && !fs.isEmpty && fs.all Char.isDigit

/-- validator.js `isInt`: optional sign then at least one digit. -/
def isIntStr (s : List Char) : Bool :=
  let t := stripSign s
  !t.isEmpty && t.all Char.isDigit

/-- Run one standard check on a request value. -/
def checkRun : Check → JsValue → Bool
  | Check.isString, v => v.isStr
  | Check.isDecimal, v => isDecimalStr (toStrJs v).data
  | Check.isInt, v => isIntStr (toStrJs v).data
  | Check.notEmpty, v => !(toStrJs v).isEmpty

/-- Printable location name used in error entries. -/
def locName : Loc → String
  | Loc.locBody => "body"
  | Loc.locParam => "params"

/-- The value a rule reads from the request. -/
def ruleValue (req : Request) (r : Rule) : JsValue :=
  match r.loc with
  | Loc.locBody => bodyGet req.body r.field
  | Loc.locParam =>
      match req.params.lookup r.field with
      | some s => JsValue.vStr s
      | none => JsValue.vUndefined

/-- Errors contributed by one chain: none when the chain is `optional()`
and the value is absent, otherwise one `"Invalid value"` entry per
failing check. -/
def ruleErrors (req : Request) (r : Rule) : List FieldError :=
  let v := ruleValue req r
  let skip := match v with
    | JsValue.vUndefined => r.opt
    | _ => false
  if skip then []
  else (r.checks.filter (fun c => !(checkRun c v))).map
    (fun _ => { location := locName r.loc, path := r.field, msg := "Invalid value" })

/-- Embeds `validationResult(req).array()`: all errors of all declared chains,
in declaration order. -/
def runRules (rules : List Rule) (req : Request) : List FieldError :=
  rules.flatMap (ruleErrors req)

/-- JSON rendering of one error entry. -/
def errToJson (e : FieldError) : JsValue :=
  JsValue.vObj [("location", JsValue.vStr e.location),
                ("path", JsValue.vStr e.path),
                ("msg", JsValue.vStr e.msg)]

/-- The 400 body `{ errors: errors.array() }` every validating handler
sends. -/
def errorsBody (errs : List FieldError) : JsValue :=
  JsValue.vObj [("errors", JsValue.vArr (errs.map errToJson))]

/-! ## MariaDB statement semantics

The handlers issue exactly the parameterized statements written in the
source; we give those statements their standard MariaDB meaning over the
association-list table model.  Parameter binding follows the mariadb
Node.js connector: `undefined` and `null` bind as SQL NULL. -/

/-- mariadb connector parameter binding of a JavaScript value. -/
def jsToSql : JsValue → SqlValue
  | JsValue.vUndefined => SqlValue.sNull
  | JsValue.vNull => SqlValue.sNull
  | JsValue.vStr s => SqlValue.sStr s
  | JsValue.vNum n => SqlValue.sNum n
  | JsValue.vBigInt n => SqlValue.sNum n
  | JsValue.vBool b => SqlValue.sNum (if b then 1 else 0)
  | JsValue.vObj _ => SqlValue.sNull
  | JsValue.vArr _ => SqlValue.sNull

/-- Driver rendering of a fetched SQL cell as a JavaScript value. -/
def sqlToJson : SqlValue → JsValue
  | SqlValue.sNull => JsValue.vNull
  | SqlValue.sStr s => JsValue.vStr s
  | SqlValue.sNum n => JsValue.vNum n

/-- SQL equality in a WHERE clause: comparisons against NULL are not
true; the key comparisons of these routes are same-typed. -/
def sqlEq : SqlValue → SqlValue → Bool
  | SqlValue.sNull, _ => false
  | _, SqlValue.sNull => false
  | SqlValue.sStr a, SqlValue.sStr b => a = b
  | SqlValue.sNum a, SqlValue.sNum b => a = b
  | _, _ => false

/-- Does a row satisfy `keyCol = keyVal`? -/
def rowKeyIs (keyCol : String) (keyVal : SqlValue) (r : Row) : Bool :=
  sqlEq (rowLookup r keyCol) keyVal

/-- First binding of a column name in a SET list. -/
def alookup (l : List (String × SqlValue)) (c : String) : Option SqlValue :=
  match l with
  | [] => none
  | (c', v) :: rest => if c' = c then some v else alookup rest c

/-- Apply a SET list to a row: assigned columns take the bound value,
all other columns keep theirs. -/
def setCols (asgs : List (String × SqlValue)) (r : Row) : Row :=
  r.map (fun p => match alookup asgs p.1 with
    | some w => (p.1, w)
    | none => p)

/-- Semantics of `UPDATE t SET ... WHERE keyCol = keyVal`: new table plus the
driver-reported `affectedRows`.  The mariadb Node.js connector these
handlers use defaults `foundRows: true`, so `affectedRows` counts the
rows MATCHED by the WHERE clause, whether or not their values change. -/
def sqlUpdate (keyCol : String) (keyVal : SqlValue) (asgs : List (String × SqlValue))
    (t : Table) : Table × Nat :=
  (t.map (fun r => if rowKeyIs keyCol keyVal r then setCols asgs r else r),
   (t.filter (fun r => rowKeyIs keyCol keyVal r)).length)

/-- Semantics of `DELETE FROM t WHERE keyCol = keyVal`: remaining rows plus
`affectedRows`. -/
def sqlDelete (keyCol : String) (keyVal : SqlValue) (t : Table) : Table × Nat :=
  (t.filter (fun r => !(rowKeyIs keyCol keyVal r)),
   (t.filter (fun r => rowKeyIs keyCol keyVal r)).length)

/-- Semantics of `SELECT * FROM t WHERE keyCol = keyVal`, rows in table order. -/
def sqlSelect (keyCol : String) (keyVal : SqlValue) (t : Table) : Table :=
  t.filter (fun r => rowKeyIs keyCol keyVal r)

/-- Semantics of `INSERT INTO t ...` under the PRIMARY KEY constraint of the schema
(every table here is uniquely keyed): a NULL or duplicate key raises a
driver error, otherwise the row is stored. -/
def sqlInsert (keyCol : String) (row : Row) (t : Table) : Except Unit Table :=
  match rowLookup row keyCol with
  | SqlValue.sNull => Except.error ()
  | keyVal =>
      if t.any (rowKeyIs keyCol keyVal) then Except.error ()
      else Except.ok (t ++ [row])

/-- JSON rendering of a fetched row (what `res.json(result[0])` sends). -/
def rowToJson (r : Row) : JsValue :=
  JsValue.vObj (r.map (fun p => (p.1, sqlToJson p.2)))

/-- The driver's result object for INSERT / UPDATE / DELETE:
`{ affectedRows, insertId, warningStatus }`, with `insertId` a BigInt. -/
structure DriverResult where
  affectedRows : Nat
  insertId : Nat
  warningStatus : Nat
deriving Repr, DecidableEq

/-- The raw driver result as the JavaScript object the connector
returns (`insertId` is a BigInt). -/
def resultToJs (r : DriverResult) : JsValue :=
  JsValue.vObj [("affectedRows", JsValue.vNum r.affectedRows),
                ("insertId", JsValue.vBigInt r.insertId),
                ("warningStatus", JsValue.vNum r.warningStatus)]

/-! ## Handler embeddings

Each handler is a pure function of the request pieces, the current
table, an externally determined driver `insertId` where relevant, and
two failure switches: `acquireFail` (pool.getConnection rejects) and
`queryFail` (conn.query rejects).  It returns the HTTP response, the
table afterwards, and connection-pool accounting. -/

/-- An HTTP response: status plus the object handed to `res.json`. -/
structure Response where
  status : Nat
  body : JsValue

/-- Pool accounting of one handler invocation. -/
structure ConnStats where
  acquired : Nat
  released : Nat
  queries : Nat
deriving Repr, DecidableEq

/-- Full outcome of one handler invocation. -/
structure HandlerOut where
  resp : Response
  table : Table
  stats : ConnStats

/-- The 500 response `res.status(500).json({ error: err.message })`
(the driver's message text is external; modelled by a fixed string). -/
def err500 : Response :=
  { status := 500, body := JsValue.vObj [("error", JsValue.vStr "driver error")] }

/-- Outcome of the path where `pool.getConnection()` rejects: `conn`
stays undefined, `finally` skips the release. -/
def acquireFailOut (t : Table) : HandlerOut :=
  { resp := err500, table := t, stats := ⟨0, 0, 0⟩ }

/-- Outcome of the path where the query rejects: the statement changes
nothing, `catch` sends 500, `finally` releases. -/
def queryFailOut (t : Table) : HandlerOut :=
  { resp := err500, table := t, stats := ⟨1, 1, 1⟩ }

/-- Rule chains of `POST /customer` (server.js). -/
def postCustomerRules : List Rule :=
  [⟨Loc.locBody, "CUST_CODE", [Check.isString, Check.notEmpty], false⟩,
   ⟨Loc.locBody, "CUST_NAME", [Check.isString, Check.notEmpty], false⟩,
   ⟨Loc.locBody, "CUST_CITY", [Check.isString], true⟩,
   ⟨Loc.locBody, "WORKING_AREA", [Check.isString, Check.notEmpty], false⟩,
   ⟨Loc.locBody, "CUST_COUNTRY", [Check.isString, Check.notEmpty], false⟩,
   ⟨Loc.locBody, "GRADE", [Check.isDecimal], true⟩,
   ⟨Loc.locBody, "OPENING_AMT", [Check.isDecimal, Check.notEmpty], false⟩,
   ⟨Loc.locBody, "RECEIVE_AMT", [Check.isDecimal, Check.notEmpty], false⟩,
   ⟨Loc.locBody, "PAYMENT_AMT", [Check.isDecimal, Check.notEmpty], false⟩,
   ⟨Loc.locBody, "OUTSTANDING_AMT", [Check.isDecimal, Check.notEmpty], false⟩,
   ⟨Loc.locBody, "PHONE_NO", [Check.isString, Check.notEmpty], false⟩,
   ⟨Loc.locBody, "AGENT_CODE", [Check.isString], true⟩]

/-- Column order of the customer INSERT statement. -/
def customerCols : List String :=
  ["CUST_CODE", "CUST_NAME", "CUST_CITY", "WORKING_AREA", "CUST_COUNTRY", "GRADE",
   "OPENING_AMT", "RECEIVE_AMT", "PAYMENT_AMT", "OUTSTANDING_AMT", "PHONE_NO", "AGENT_CODE"]

/-- The row the customer INSERT stores: each column bound positionally
to the destructured body field. -/
def postCustomerRow (b : JsObj) : Row :=
  customerCols.map (fun c => (c, jsToSql (bodyGet b c)))

/-- The `formattedResult` of `POST /customer` (server.js lines 137-140):
the spread driver result with `insertId` converted to its decimal
string. -/
def postCustomerFormatted (r : DriverResult) : JsValue :=
  JsValue.vObj [("affectedRows", JsValue.vNum r.affectedRows),
                ("insertId", JsValue.vStr (decStr r.insertId)),
                ("warningStatus", JsValue.vNum r.warningStatus)]

/-- Handler of `POST /customer` (server.js lines 91-150).  `newId` is the
`insertId` the driver reports for a successful insert (determined by
the database, 0 for a table without AUTO_INCREMENT). -/
def postCustomer (b : JsObj) (t : Table) (newId : Nat)
    (acquireFail queryFail : Bool) : HandlerOut :=
  let errs := runRules postCustomerRules { params := [], body := b }
  if errs.isEmpty then
    if acquireFail then acquireFailOut t
    else if queryFail then queryFailOut t
    else
      match sqlInsert "CUST_CODE" (postCustomerRow b) t with
      | Except.error _ => queryFailOut t
      | Except.ok t2 =>
          { resp := { status := 201,
                      body := JsValue.vObj
                        [("message", JsValue.vStr "Customer added successfully!"),
                         ("result", postCustomerFormatted ⟨1, newId, 0⟩)] },
            table := t2, stats := ⟨1, 1, 1⟩ }
  else
    { resp := { status := 400, body := errorsBody errs }, table := t, stats := ⟨0, 0, 0⟩ }

/-- Rule chains of `PATCH /customer/:id` (server.js). -/
def patchCustomerRules : List Rule :=
  [⟨Loc.locParam, "id", [Check.isString], false⟩,
   ⟨Loc.locBody, "CUST_CITY", [Check.isString], true⟩,
   ⟨Loc.locBody, "CUST_COUNTRY", [Check.isString], true⟩,
   ⟨Loc.locBody, "GRADE", [Check.isDecimal], true⟩,
   ⟨Loc.locBody, "OPENING_AMT", [Check.isDecimal], true⟩,
   ⟨Loc.locBody, "RECEIVE_AMT", [Check.isDecimal], true⟩,
   ⟨Loc.locBody, "PAYMENT_AMT", [Check.isDecimal], true⟩,
   ⟨Loc.locBody, "OUTSTANDING_AMT", [Check.isDecimal], true⟩]

/-- The fixed SET list of the PATCH statement: all seven columns are
bound on every request, whether or not present in the body (absent
fields destructure to `undefined` and bind as NULL). -/
def patchAsgs (b : JsObj) : List (String × SqlValue) :=
  [("CUST_CITY", jsToSql (bodyGet b "CUST_CITY")),
   ("CUST_COUNTRY", jsToSql (bodyGet b "CUST_COUNTRY")),
   ("GRADE", jsToSql (bodyGet b "GRADE")),
   ("OPENING_AMT", jsToSql (bodyGet b "OPENING_AMT")),
   ("RECEIVE_AMT", jsToSql (bodyGet b "RECEIVE_AMT")),
   ("PAYMENT_AMT", jsToSql (bodyGet b "PAYMENT_AMT")),
   ("OUTSTANDING_AMT", jsToSql (bodyGet b "OUTSTANDING_AMT"))]

/-- The `formattedResult` of PATCH/PUT (server.js): `affectedRows` as a
string; `insertId` is stringified when truthy and null otherwise
(BigInt 0 is falsy). -/
def updateFormatted (r : DriverResult) : JsValue :=
  JsValue.vObj [("affectedRows", JsValue.vStr (decStr r.affectedRows)),
                ("insertId", if r.insertId = 0 then JsValue.vNull
                             else JsValue.vStr (decStr r.insertId)),
                ("warningStatus", JsValue.vNum r.warningStatus)]

/-- The `affectedRows` reported by the PATCH statement. -/
def patchAffected (id : String) (b : JsObj) (t : Table) : Nat :=
  (sqlUpdate "CUST_CODE" (SqlValue.sStr id) (patchAsgs b) t).2

/-- Handler of `PATCH /customer/:id` (server.js lines 194-251). -/
def patchCustomer (id : String) (b : JsObj) (t : Table)
    (acquireFail queryFail : Bool) : HandlerOut :=
  let errs := runRules patchCustomerRules { params := [("id", id)], body := b }
  if errs.isEmpty then
    if acquireFail then acquireFailOut t
    else if queryFail then queryFailOut t
    else
      let u := sqlUpdate "CUST_CODE" (SqlValue.sStr id) (patchAsgs b) t
      if u.2 = 0 then
        { resp := { status := 404,
                    body := JsValue.vObj [("message", JsValue.vStr "Customer not found")] },
          table := u.1, stats := ⟨1, 1, 1⟩ }
      else
        { resp := { status := 200,
                    body := JsValue.vObj
                      [("message", JsValue.vStr "Customer updated successfully!"),
                       ("result", updateFormatted ⟨u.2, 0, 0⟩)] },
          table := u.1, stats := ⟨1, 1, 1⟩ }
  else
    { resp := { status := 400, body := errorsBody errs }, table := t, stats := ⟨0, 0, 0⟩ }

/-- Rule chains of `PUT /customer/:id` (server.js). -/
def putCustomerRules : List Rule :=
  [⟨Loc.locParam, "id", [Check.isString], false⟩,
   ⟨Loc.locBody, "CUST_NAME", [Check.isString, Check.notEmpty], false⟩,
   ⟨Loc.locBody, "CUST_CITY", [Check.isString], true⟩,
   ⟨Loc.locBody, "WORKING_AREA", [Check.isString, Check.notEmpty], false⟩,
   ⟨Loc.locBody, "CUST_COUNTRY", [Check.isString, Check.notEmpty], false⟩,
   ⟨Loc.locBody, "GRADE", [Check.isDecimal], true⟩,
   ⟨Loc.locBody, "OPENING_AMT", [Check.isDecimal, Check.notEmpty], false⟩,
   ⟨Loc.locBody, "RECEIVE_AMT", [Check.isDecimal, Check.notEmpty], false⟩,
   ⟨Loc.locBody, "PAYMENT_AMT", [Check.isDecimal, Check.notEmpty], false⟩,
   ⟨Loc.locBody, "OUTSTANDING_AMT", [Check.isDecimal, Check.notEmpty], false⟩,
   ⟨Loc.locBody, "PHONE_NO", [Check.isString, Check.notEmpty], false⟩,
   ⟨Loc.locBody, "AGENT_CODE", [Check.isString], true⟩]

/-- The SET list of the PUT statement (all eleven mutable columns). -/
def putAsgs (b : JsObj) : List (String × SqlValue) :=
  [("CUST_NAME", jsToSql (bodyGet b "CUST_NAME")),
   ("CUST_CITY", jsToSql (bodyGet b "CUST_CITY")),
   ("WORKING_AREA", jsToSql (bodyGet b "WORKING_AREA")),
   ("CUST_COUNTRY", jsToSql (bodyGet b "CUST_COUNTRY")),
   ("GRADE", jsToSql (bodyGet b "GRADE")),
   ("OPENING_AMT", jsToSql (bodyGet b "OPENING_AMT")),
   ("RECEIVE_AMT", jsToSql (bodyGet b "RECEIVE_AMT")),
   ("PAYMENT_AMT", jsToSql (bodyGet b "PAYMENT_AMT")),
   ("OUTSTANDING_AMT", jsToSql (bodyGet b "OUTSTANDING_AMT")),
   ("PHONE_NO", jsToSql (bodyGet b "PHONE_NO")),
   ("AGENT_CODE", jsToSql (bodyGet b "AGENT_CODE"))]

/-- The `affectedRows` reported by the PUT statement. -/
def putAffected (id : String) (b : JsObj) (t : Table) : Nat :=
  (sqlUpdate "CUST_CODE" (SqlValue.sStr id) (putAsgs b) t).2

/-- Handler of `PUT /customer/:id` (server.js lines 305-369). -/
def putCustomer (id : String) (b : JsObj) (t : Table)
    (acquireFail queryFail : Bool) : HandlerOut :=
  let errs := runRules putCustomerRules { params := [("id", id)], body := b }
  if errs.isEmpty then
    if acquireFail then acquireFailOut t
    else if queryFail then queryFailOut t
    else
      let u := sqlUpdate "CUST_CODE" (SqlValue.sStr id) (putAsgs b) t
      if u.2 = 0 then
        { resp := { status := 404,
                    body := JsValue.vObj [("message", JsValue.vStr "Customer not found")] },
          table := u.1, stats := ⟨1, 1, 1⟩ }
      else
        { resp := { status := 200,
                    body := JsValue.vObj
                      [("message", JsValue.vStr "Customer replaced successfully!"),
                       ("result", updateFormatted ⟨u.2, 0, 0⟩)] },
          table := u.1, stats := ⟨1, 1, 1⟩ }
  else
    { resp := { status := 400, body := errorsBody errs }, table := t, stats := ⟨0, 0, 0⟩ }

/-- Handler of `GET /customer/:id` (server.js lines 391-410).  The declared
`param('id').isString()` chain is never consulted by this handler. -/
def getCustomer (id : String) (t : Table)
    (acquireFail queryFail : Bool) : HandlerOut :=
  if acquireFail then acquireFailOut t
  else if queryFail then queryFailOut t
  else
    match sqlSelect "CUST_CODE" (SqlValue.sStr id) t with
    | [] =>
        { resp := { status := 404,
                    body := JsValue.vObj [("message", JsValue.vStr "Customer not found")] },
          table := t, stats := ⟨1, 1, 1⟩ }
    | r :: _ =>
        { resp := { status := 200, body := rowToJson r }, table := t, stats := ⟨1, 1, 1⟩ }

/-- The `affectedRows` reported by the customer DELETE statement. -/
def deleteAffected (id : String) (t : Table) : Nat :=
  (sqlDelete "CUST_CODE" (SqlValue.sStr id) t).2

/-- Handler of `DELETE /customer/:id` (server.js lines 432-451).  The declared
`param('id').isString()` chain is never consulted by this handler. -/
def deleteCustomer (id : String) (t : Table)
    (acquireFail queryFail : Bool) : HandlerOut :=
  if acquireFail then acquireFailOut t
  else if queryFail then queryFailOut t
  else
    let d := sqlDelete "CUST_CODE" (SqlValue.sStr id) t
    if d.2 = 0 then
      { resp := { status := 404,
                  body := JsValue.vObj [("message", JsValue.vStr "Customer not found")] },
        table := d.1, stats := ⟨1, 1, 1⟩ }
    else
      { resp := { status := 200,
                  body := JsValue.vObj [("message", JsValue.vStr "Customer deleted successfully!")] },
        table := d.1, stats := ⟨1, 1, 1⟩ }

/-- Rule chains of `POST /agent` (server.js). -/
def postAgentRules : List Rule :=
  [⟨Loc.locBody, "AGENT_CODE", [Check.isString, Check.notEmpty], false⟩,
   ⟨Loc.locBody, "AGENT_NAME", [Check.isString, Check.notEmpty], false⟩,
   ⟨Loc.locBody, "WORKING_AREA", [Check.isString], true⟩,
   ⟨Loc.locBody, "COMMISSION", [Check.isDecimal], true⟩,
   ⟨Loc.locBody, "PHONE_NO", [Check.isString], true⟩,
   ⟨Loc.locBody, "COUNTRY", [Check.isString], true⟩]

/-- Column order of the agent INSERT statement. -/
def agentCols : List String :=
  ["AGENT_CODE", "AGENT_NAME", "WORKING_AREA", "COMMISSION", "PHONE_NO", "COUNTRY"]

/-- The row the agent INSERT stores. -/
def postAgentRow (b : JsObj) : Row :=
  agentCols.map (fun c => (c, jsToSql (bodyGet b c)))

/-- Handler of `POST /agent` (server.js lines 495-535): on success the RAW driver
result is placed in the 201 body — no BigInt conversion is applied. -/
def postAgent (b : JsObj) (t : Table) (newId : Nat)
    (acquireFail queryFail : Bool) : HandlerOut :=
  let errs := runRules postAgentRules { params := [], body := b }
  if errs.isEmpty then
    if acquireFail then acquireFailOut t
    else if queryFail then queryFailOut t
    else
      match sqlInsert "AGENT_CODE" (postAgentRow b) t with
      | Except.error _ => queryFailOut t
      | Except.ok t2 =>
          { resp := { status := 201,
                      body := JsValue.vObj
                        [("message", JsValue.vStr "Agent added successfully!"),
                         ("result", resultToJs ⟨1, newId, 0⟩)] },
            table := t2, stats := ⟨1, 1, 1⟩ }
  else
    { resp := { status := 400, body := errorsBody errs }, table := t, stats := ⟨0, 0, 0⟩ }

/-- Whitespace as JavaScript `String.prototype.trim` removes it (the
characters occurring in practice). -/
def isJsWs (c : Char) : Bool :=
  c = ' ' ∨ c = '\t' ∨ c = '\n' ∨ c = '\r'

/-- JavaScript `String.prototype.trim` over the character list. -/
def trimChars (s : List Char) : List Char :=
  ((s.dropWhile isJsWs).reverse.dropWhile isJsWs).reverse

/-- validator.js `escape` sanitizer on one character: HTML-escapes
ampersand, quotes, angle brackets, slash, backslash and backtick. -/
def escapeChar (c : Char) : List Char :=
  if c = Char.ofNat 38 then "&amp;".data
  else if c = Char.ofNat 34 then "&quot;".data
  else if c = Char.ofNat 39 then "&#x27;".data
  else if c = Char.ofNat 60 then "&lt;".data
  else if c = Char.ofNat 62 then "&gt;".data
  else if c = Char.ofNat 47 then "&#x2F;".data
  else if c = Char.ofNat 92 then "&#x5C;".data
  else if c = Char.ofNat 96 then "&#96;".data
  else [c]

/-- validator.js `escape` sanitizer. -/
def escapeChars (s : List Char) : List Char :=
  s.flatMap escapeChar

/-- The sanitized city value after `param('city').isString().trim().escape()`
has rewritten `req.params.city`. -/
def sanitizeCity (city : String) : List Char :=
  escapeChars (trimChars city.data)

/-- MariaDB `LIKE` pattern matching: `%` matches any character
sequence, `_` matches exactly one character, every other pattern
character matches itself.  (The sanitized parameter contains no
backslash, so the escape character plays no role in these patterns.) -/
def likeMatch : List Char → List Char → Bool
  | [], [] => true
  | [], _ :: _ => false
  | p :: ps, s =>
      if p = '%' then
        likeMatch ps s ||
          (match s with
           | [] => false
           | _ :: s' => likeMatch (p :: ps) s')
      else
        match s with
        | [] => false
        | c :: s' => (p = '_' || p = c) && likeMatch ps s'
termination_by p s => p.length + s.length

/-- The pattern `` `%${req.params.city}%` `` the city route binds to
`CUST_CITY LIKE ?`. -/
def cityPattern (city : String) : List Char :=
  '%' :: (sanitizeCity city ++ ['%'])

/-- The rows `SELECT * FROM customer WHERE CUST_CITY LIKE ?` returns
for the sanitized city parameter (a NULL city matches no pattern). -/
def cityLikeRows (city : String) (t : Table) : Table :=
  t.filter (fun r => match rowLookup r "CUST_CITY" with
    | SqlValue.sStr s => likeMatch (cityPattern city) s.data
    | _ => false)

/-- Handler of `GET /customers/city/:city` (part_001 lines 143-161). -/
def getCustomersByCity (city : String) (t : Table)
    (acquireFail queryFail : Bool) : HandlerOut :=
  if acquireFail then acquireFailOut t
  else if queryFail then queryFailOut t
  else
    let rows := cityLikeRows city t
    if rows.isEmpty then
      { resp := { status := 404,
                  body := JsValue.vObj
                    [("message", JsValue.vStr "No customers found in this city")] },
        table := t, stats := ⟨1, 1, 1⟩ }
    else
      { resp := { status := 200, body := JsValue.vArr (rows.map rowToJson) },
        table := t, stats := ⟨1, 1, 1⟩ }

/-- Does `needle` occur at the head of `hay`? -/
def occursAt : List Char → List Char → Bool
  | [], _ => true
  | _ :: _, [] => false
  | n :: ns, h :: hs => n = h && occursAt ns hs

/-- Does `needle` occur anywhere in `hay` (substring containment)? -/
def occursIn (needle : List Char) : List Char → Bool
  | [] => needle.isEmpty
  | h :: hs => occursAt needle (h :: hs) || occursIn needle hs

/-- The rows the claim's words describe for the city route: customers
whose `CUST_CITY` contains the GIVEN path parameter as a substring
(case rules taken as the binary collation's, i.e. exact). -/
def specCitySubstrRows (city : String) (t : Table) : Table :=
  t.filter (fun r => match rowLookup r "CUST_CITY" with
    | SqlValue.sStr s => occursIn city.data s.data
    | _ => false)

/-- Embedding of `handleBigInt` (part_000 lines 41-48): rewrite every top-level
property holding a BigInt to its decimal string; leave every other
property — nested objects included — untouched. -/
def handleBigInt (o : List (String × JsValue)) : List (String × JsValue) :=
  o.map (fun p => match p.2 with
    | JsValue.vBigInt n => (p.1, JsValue.vStr (jsBigIntToString n))
    | _ => p)

/-- Rule chain declared on `DELETE /customer/:id` of the part_001
variant: `param('id').isInt()`. -/
def deleteP1Rules : List Rule :=
  [⟨Loc.locParam, "id", [Check.isInt], false⟩]

/-- Handler of `DELETE /customer/:id` (part_001 lines 122-140): the `isInt` chain
above runs as middleware and records its errors, but the handler never
calls `validationResult`, so it proceeds to the pool and the DELETE
statement regardless. -/
def deleteCustomerP1 (id : String) (t : Table)
    (acquireFail queryFail : Bool) : HandlerOut :=
  if acquireFail then acquireFailOut t
  else if queryFail then queryFailOut t
  else
    let d := sqlDelete "CUST_CODE" (SqlValue.sStr id) t
    if d.2 = 0 then
      { resp := { status := 404,
                  body := JsValue.vObj [("message", JsValue.vStr "Customer not found")] },
        table := d.1, stats := ⟨1, 1, 1⟩ }
    else
      { resp := { status := 200,
                  body := JsValue.vObj [("message", JsValue.vStr "Customer deleted successfully!")] },
        table := d.1, stats := ⟨1, 1, 1⟩ }

/-- Customer columns the PATCH statement never writes. -/
def patchUntouchedCols : List String :=
  ["CUST_CODE", "CUST_NAME", "WORKING_AREA", "PHONE_NO", "AGENT_CODE"]

/-- The seven columns of the PATCH statement's fixed SET list, written
on every request. -/
def patchSetCols : List String :=
  ["CUST_CITY", "CUST_COUNTRY", "GRADE", "OPENING_AMT", "RECEIVE_AMT",
   "PAYMENT_AMT", "OUTSTANDING_AMT"]

/-- A valid `POST /customer` payload (the concrete scenario of the
spec's testable-properties section). -/
def sampleCustomerBody : JsObj :=
  [("CUST_CODE", JsValue.vStr "C001"), ("CUST_NAME", JsValue.vStr "Acme"),
   ("CUST_CITY", JsValue.vStr "NY"), ("WORKING_AREA", JsValue.vStr "East"),
   ("CUST_COUNTRY", JsValue.vStr "US"), ("OPENING_AMT", JsValue.vStr "100.00"),
   ("RECEIVE_AMT", JsValue.vStr "0"), ("PAYMENT_AMT", JsValue.vStr "0"),
   ("OUTSTANDING_AMT", JsValue.vStr "100.00"), ("PHONE_NO", JsValue.vStr "555-1111")]

/-- A payload valid for both `POST /customer` and `POST /agent`. -/
def sampleCombinedBody : JsObj :=
  sampleCustomerBody ++
  [("AGENT_CODE", JsValue.vStr "A007"), ("AGENT_NAME", JsValue.vStr "Bond")]

/-- Pool-accounting soundness of one handler invocation: the release
count equals the acquire count (a released connection was acquired, an
acquired connection is released), and at most one connection is held. -/
def statsOk (o : HandlerOut) : Prop :=
  o.stats.released = o.stats.acquired ∧ o.stats.acquired ≤ 1

/-! ## Helper lemmas -/

theorem digitChar_toNat {d : Nat} (h : d < 10) : (digitChar d).toNat = 48 + d := by
  interval_cases d <;> rfl

theorem decList_ne_nil (n : Nat) : decList n ≠ [] := by
  unfold decList
  split <;> simp

theorem decList_digits (n : Nat) : ∀ c ∈ decList n, 48 ≤ c.toNat ∧ c.toNat ≤ 57 := by
  induction n using Nat.strong_induction_on with
  | _ n ih =>
    intro c hc
    unfold decList at hc
    split at hc
    · next h =>
      simp only [List.mem_singleton] at hc
      subst hc
      rw [digitChar_toNat h]
      omega
    · next h =>
      rw [List.mem_append] at hc
      rcases hc with hc | hc
      · exact ih (n / 10) (Nat.div_lt_self (by omega) (by norm_num)) c hc
      · simp only [List.mem_singleton] at hc
        subst hc
        have hm : n % 10 < 10 := Nat.mod_lt _ (by norm_num)
        rw [digitChar_toNat hm]
        omega

theorem decodeDecL_decList (n : Nat) : decodeDecL (decList n) = n := by
  induction n using Nat.strong_induction_on with
  | _ n ih =>
    unfold decList
    split
    · next h =>
      simp only [decodeDecL, List.foldl]
      rw [digitChar_toNat h]
      omega
    · next h =>
      have hrec := ih (n / 10) (Nat.div_lt_self (by omega) (by norm_num))
      simp only [decodeDecL] at hrec ⊢
      rw [List.foldl_append]
      simp only [List.foldl]
      rw [hrec, digitChar_toNat (Nat.mod_lt _ (by norm_num))]
      omega

theorem jsBigIntDecode_mk_cons (c : Char) (cs : List Char) :
    jsBigIntDecode (String.mk (c :: cs))
      = if c = '-' then -(decodeDecL cs : Int) else (decodeDecL (c :: cs) : Int) := rfl

theorem jsBigIntDecode_toString (n : Int) : jsBigIntDecode (jsBigIntToString n) = n := by
  by_cases h : n < 0
  · have h1 : jsBigIntToString n = String.mk ('-' :: decList n.natAbs) := by
      unfold jsBigIntToString
      rw [if_pos h]
    rw [h1, jsBigIntDecode_mk_cons, if_pos rfl, decodeDecL_decList]
    omega
  · have h1 : jsBigIntToString n = String.mk (decList n.toNat) := by
      unfold jsBigIntToString
      rw [if_neg h]
    obtain ⟨c, cs, hcs⟩ : ∃ c cs, decList n.toNat = c :: cs := by
      cases hd : decList n.toNat with
      | nil => exact absurd hd (decList_ne_nil _)
      | cons c cs => exact ⟨c, cs, rfl⟩
    have hdig := decList_digits n.toNat c (by rw [hcs]; exact List.mem_cons_self _ _)
    have hne : c ≠ '-' := by
      intro e
      subst e
      have h45 : ('-').toNat = 45 := rfl
      omega
    rw [h1, hcs, jsBigIntDecode_mk_cons, if_neg hne, ← hcs, decodeDecL_decList]
    omega

theorem rowLookup_mapCols (cols : List String) (f : String → SqlValue) (c : String)
    (hc : c ∈ cols) : rowLookup (cols.map (fun x => (x, f x))) c = f c := by
  induction cols with
  | nil => cases hc
  | cons x xs ih =>
    simp only [List.map, rowLookup]
    by_cases h : x = c
    · subst h
      simp
    · rw [if_neg h]
      exact ih (by rcases List.mem_cons.mp hc with h' | h' <;> [exact absurd h'.symm h; exact h'])

theorem bodyGet_mapCols (cols : List String) (f : String → JsValue) (c : String)
    (hc : c ∈ cols) : bodyGet (cols.map (fun x => (x, f x))) c = f c := by
  induction cols with
  | nil => cases hc
  | cons x xs ih =>
    simp only [List.map, bodyGet]
    by_cases h : x = c
    · subst h
      simp
    · rw [if_neg h]
      exact ih (by rcases List.mem_cons.mp hc with h' | h' <;> [exact absurd h'.symm h; exact h'])

theorem rowLookup_setCols (asgs : List (String × SqlValue)) (r : Row) (c : String)
    (h : alookup asgs c = none) : rowLookup (setCols asgs r) c = rowLookup r c := by
  induction r with
  | nil => rfl
  | cons p r ih =>
    obtain ⟨c', v⟩ := p
    simp only [setCols, List.map] at ih ⊢
    by_cases hc : c' = c
    · subst hc
      rw [h]
      simp [rowLookup]
    · cases hv : alookup asgs c' <;> simp only [rowLookup, if_neg hc] <;> exact ih

theorem rowLookup_setCols_mem (asgs : List (String × SqlValue)) (r : Row)
    (c : String) (w : SqlValue) (ha : alookup asgs c = some w)
    (hm : c ∈ r.map Prod.fst) : rowLookup (setCols asgs r) c = w := by
  induction r with
  | nil => cases hm
  | cons p rest ih =>
    obtain ⟨c', v⟩ := p
    simp only [setCols, List.map] at ih ⊢
    by_cases hc : c' = c
    · subst hc
      rw [ha]
      simp [rowLookup]
    · have hm' : c ∈ rest.map Prod.fst := by
        rcases List.mem_cons.mp hm with h' | h'
        · exact absurd h'.symm hc
        · exact h'
      cases hv' : alookup asgs c' <;> simp only [rowLookup, if_neg hc] <;> exact ih hm'

theorem sqlUpdate_no_match (keyCol : String) (keyVal : SqlValue)
    (asgs : List (String × SqlValue)) (t : Table)
    (h : ∀ r ∈ t, rowKeyIs keyCol keyVal r = false) :
    sqlUpdate keyCol keyVal asgs t = (t, 0) := by
  unfold sqlUpdate
  have h1 : t.map (fun r => if rowKeyIs keyCol keyVal r then setCols asgs r else r) = t := by
    induction t with
    | nil => rfl
    | cons r rest ih =>
      simp only [List.map]
      rw [if_neg (by simp [h r (List.mem_cons_self _ _)]),
          ih (fun r' hr' => h r' (List.mem_cons_of_mem _ hr'))]
  have h2 : t.filter (fun r => rowKeyIs keyCol keyVal r) = [] := by
    rw [List.filter_eq_nil_iff]
    intro r hr
    simp [h r hr]
  rw [h1, h2]
  rfl

theorem likeMatch_pct_nil (p : List Char) : likeMatch ('%' :: p) [] = likeMatch p [] := by
  conv_lhs => unfold likeMatch
  simp

theorem likeMatch_pct_cons (p : List Char) (c : Char) (s : List Char) :
    likeMatch ('%' :: p) (c :: s) = (likeMatch p (c :: s) || likeMatch ('%' :: p) s) := by
  conv_lhs => unfold likeMatch
  simp

theorem likeMatch_lit_nil (a : Char) (p : List Char) (ha : a ≠ '%') :
    likeMatch (a :: p) [] = false := by
  unfold likeMatch
  simp [ha]

theorem likeMatch_lit_cons (a : Char) (p : List Char) (c : Char) (s : List Char)
    (ha : a ≠ '%') :
    likeMatch (a :: p) (c :: s) = ((a = '_' || a = c) && likeMatch p s) := by
  conv_lhs => unfold likeMatch
  simp [ha]

theorem likeMatch_all_pct (s : List Char) : likeMatch ['%'] s = true := by
  induction s with
  | nil =>
    have h0 : likeMatch [] [] = true := by
      unfold likeMatch
      rfl
    unfold likeMatch
    simp [h0]
  | cons c s ih =>
    rw [likeMatch_pct_cons]
    simp [ih]

theorem likeMatch_pct_iff (p : List Char) (s : List Char) :
    likeMatch ('%' :: p) s = true ↔ ∃ i, likeMatch p (s.drop i) = true := by
  induction s with
  | nil =>
    rw [likeMatch_pct_nil]
    constructor
    · intro h
      exact ⟨0, h⟩
    · rintro ⟨i, hi⟩
      simpa using hi
  | cons c s ih =>
    rw [likeMatch_pct_cons, Bool.or_eq_true, ih]
    constructor
    · rintro (h | ⟨i, hi⟩)
      · exact ⟨0, h⟩
      · exact ⟨i + 1, hi⟩
    · rintro ⟨i, hi⟩
      cases i with
      | zero => exact Or.inl hi
      | succ i => exact Or.inr ⟨i, hi⟩

theorem likeMatch_tailpct (n : List Char) (hn : ∀ c ∈ n, c ≠ '%' ∧ c ≠ '_') :
    ∀ s : List Char, likeMatch (n ++ ['%']) s = occursAt n s := by
  induction n with
  | nil =>
    intro s
    simp only [List.nil_append]
    rw [likeMatch_all_pct]
    rfl
  | cons a n' ih =>
    intro s
    have ha := hn a (List.mem_cons_self _ _)
    cases s with
    | nil =>
      rw [List.cons_append, likeMatch_lit_nil _ _ ha.1]
      rfl
    | cons c s' =>
      rw [List.cons_append, likeMatch_lit_cons _ _ _ _ ha.1]
      have h2 : (a = '_' : Prop) = False := by simp [ha.2]
      simp only [occursAt, ih (fun x hx => hn x (List.mem_cons_of_mem _ hx)) s',
        decide_eq_false ha.2]
      simp

theorem occursIn_iff_drop (n s : List Char) :
    occursIn n s = true ↔ ∃ i, occursAt n (s.drop i) = true := by
  induction s with
  | nil =>
    simp only [occursIn]
    constructor
    · intro h
      exact ⟨0, by cases n with
        | nil => rfl
        | cons a n' => simp [occursIn] at h⟩
    · rintro ⟨i, hi⟩
      cases n with
      | nil => rfl
      | cons a n' => simp [occursAt] at hi
  | cons c s' ih =>
    simp only [occursIn, Bool.or_eq_true, ih]
    constructor
    · rintro (h | ⟨i, hi⟩)
      · exact ⟨0, h⟩
      · exact ⟨i + 1, hi⟩
    · rintro ⟨i, hi⟩
      cases i with
      | zero => exact Or.inl hi
      | succ i => exact Or.inr ⟨i, hi⟩

theorem likeMatch_substr (n : List Char) (hn : ∀ c ∈ n, c ≠ '%' ∧ c ≠ '_')
    (s : List Char) :
    likeMatch ('%' :: (n ++ ['%'])) s = true ↔ occursIn n s = true := by
  rw [likeMatch_pct_iff, occursIn_iff_drop]
  constructor
  · rintro ⟨i, hi⟩
    exact ⟨i, by rwa [likeMatch_tailpct n hn] at hi⟩
  · rintro ⟨i, hi⟩
    exact ⟨i, by rwa [likeMatch_tailpct n hn]⟩

theorem isEmpty_false_of_ne {α : Type} {l : List α} (h : l ≠ []) : l.isEmpty = false := by
  cases l with
  | nil => exact absurd rfl h
  | cons a l => rfl

theorem isEmpty_true_of_eq {α : Type} {l : List α} (h : l = []) : l.isEmpty = true := by
  rw [h]
  rfl

/-! ## Claims -/

/-- C6: every handler that acquires a pooled connection releases it
exactly once, on every exit path — success, not-found, validation
failure (no connection ever acquired) and driver failure alike — so no
invocation of any embedded handler leaks a pooled connection. -/
theorem c6_connection_release :
    (∀ (b : JsObj) (t : Table) (newId : Nat) (af qf : Bool),
       statsOk (postCustomer b t newId af qf)) ∧
    (∀ (id : String) (b : JsObj) (t : Table) (af qf : Bool),
       statsOk (patchCustomer id b t af qf)) ∧
    (∀ (id : String) (b : JsObj) (t : Table) (af qf : Bool),
       statsOk (putCustomer id b t af qf)) ∧
    (∀ (id : String) (t : Table) (af qf : Bool), statsOk (getCustomer id t af qf)) ∧
    (∀ (id : String) (t : Table) (af qf : Bool), statsOk (deleteCustomer id t af qf)) ∧
    (∀ (b : JsObj) (t : Table) (newId : Nat) (af qf : Bool),
       statsOk (postAgent b t newId af qf)) ∧
    (∀ (id : String) (t : Table) (af qf : Bool), statsOk (deleteCustomerP1 id t af qf)) ∧
    (∀ (city : String) (t : Table) (af qf : Bool),
       statsOk (getCustomersByCity city t af qf)) := by
  refine ⟨?_, ?_, ?_, ?_, ?_, ?_, ?_, ?_⟩ <;> intros <;>
    simp only [statsOk, postCustomer, patchCustomer, putCustomer, getCustomer,
      deleteCustomer, postAgent, deleteCustomerP1, getCustomersByCity,
      acquireFailOut, queryFailOut] <;>
    (repeat' split) <;>
    exact ⟨rfl, by norm_num⟩

/-- C3 counterexample: `DELETE /customer/:id` of the part_001 variant
declares `param('id').isInt()`, the request `id = "abc"` violates that
rule (the recorded error list is non-empty), yet the handler — which
never consults `validationResult` — still acquires a pooled connection,
executes the DELETE statement, and answers 404 rather than 400. -/
theorem c3_counterexample :
    runRules deleteP1Rules { params := [("id", "abc")], body := [] } ≠ [] ∧
    (deleteCustomerP1 "abc" [] false false).stats.acquired = 1 ∧
    (deleteCustomerP1 "abc" [] false false).stats.queries = 1 ∧
    (deleteCustomerP1 "abc" [] false false).resp.status = 404 :=
  ⟨by decide, rfl, rfl, rfl⟩

/-- C3 (amended): the handlers that do consult `validationResult`
(`POST /customer`, `PATCH /customer/:id`, `PUT /customer/:id`,
`POST /agent`) answer 400 on any rule violation without acquiring a
connection, executing a statement, or touching the table; the routes
that declare rules but never consult the result (`GET`/`DELETE` by id,
`GET /customers/city/:city`) proceed to the database regardless. -/
theorem c3_validation_gates_db_amended (id : String) (b : JsObj) (t : Table)
    (newId : Nat) (af qf : Bool) :
    (runRules postCustomerRules { params := [], body := b } ≠ [] →
      (postCustomer b t newId af qf).resp.status = 400 ∧
      (postCustomer b t newId af qf).stats.acquired = 0 ∧
      (postCustomer b t newId af qf).stats.queries = 0 ∧
      (postCustomer b t newId af qf).table = t) ∧
    (runRules patchCustomerRules { params := [("id", id)], body := b } ≠ [] →
      (patchCustomer id b t af qf).resp.status = 400 ∧
      (patchCustomer id b t af qf).stats.acquired = 0 ∧
      (patchCustomer id b t af qf).stats.queries = 0 ∧
      (patchCustomer id b t af qf).table = t) ∧
    (runRules putCustomerRules { params := [("id", id)], body := b } ≠ [] →
      (putCustomer id b t af qf).resp.status = 400 ∧
      (putCustomer id b t af qf).stats.acquired = 0 ∧
      (putCustomer id b t af qf).stats.queries = 0 ∧
      (putCustomer id b t af qf).table = t) ∧
    (runRules postAgentRules { params := [], body := b } ≠ [] →
      (postAgent b t newId af qf).resp.status = 400 ∧
      (postAgent b t newId af qf).stats.acquired = 0 ∧
      (postAgent b t newId af qf).stats.queries = 0 ∧
      (postAgent b t newId af qf).table = t) := by
  refine ⟨fun h => ?_, fun h => ?_, fun h => ?_, fun h => ?_⟩ <;>
    simp [postCustomer, patchCustomer, putCustomer, postAgent,
      isEmpty_false_of_ne h]

/-- Witness for the amended C3: the body `{ CUST_CITY: 1 }` violates a
rule of all four validating routes, and each answers 400 with no pool
or table activity. -/
theorem c3_validation_gates_db_amended_witness :
    (postCustomer [("CUST_CITY", JsValue.vNum 1)] [] 0 false false).resp.status = 400 ∧
    (postCustomer [("CUST_CITY", JsValue.vNum 1)] [] 0 false false).stats.acquired = 0 ∧
    (patchCustomer "X" [("CUST_CITY", JsValue.vNum 1)] [] false false).resp.status = 400 ∧
    (patchCustomer "X" [("CUST_CITY", JsValue.vNum 1)] [] false false).stats.queries = 0 ∧
    (putCustomer "X" [("CUST_CITY", JsValue.vNum 1)] [] false false).resp.status = 400 ∧
    (postAgent [("CUST_CITY", JsValue.vNum 1)] [] 0 false false).resp.status = 400 := by
  have h := c3_validation_gates_db_amended "X" [("CUST_CITY", JsValue.vNum 1)] [] 0 false false
  have h1 := h.1 (by decide)
  have h2 := h.2.1 (by decide)
  have h3 := h.2.2.1 (by decide)
  have h4 := h.2.2.2 (by decide)
  exact ⟨h1.1, h1.2.1, h2.1, h2.2.2.1, h3.1, h4.1⟩

/-- C4: on any request to a validating route (`POST /customer`,
`PATCH`/`PUT /customer/:id`, `POST /agent`) violating at least one
declared rule, the handler answers 400 with a body carrying the full
`errors.array()` list, and that list contains every error of every
declared chain — all violated rules are enumerated, not only the first. -/
theorem c4_all_violations_reported (id : String) (b : JsObj) (t : Table)
    (newId : Nat) (af qf : Bool) :
    (runRules postCustomerRules { params := [], body := b } ≠ [] →
      (postCustomer b t newId af qf).resp.status = 400 ∧
      (postCustomer b t newId af qf).resp.body
        = errorsBody (runRules postCustomerRules { params := [], body := b })) ∧
    (runRules patchCustomerRules { params := [("id", id)], body := b } ≠ [] →
      (patchCustomer id b t af qf).resp.status = 400 ∧
      (patchCustomer id b t af qf).resp.body
        = errorsBody (runRules patchCustomerRules { params := [("id", id)], body := b })) ∧
    (runRules putCustomerRules { params := [("id", id)], body := b } ≠ [] →
      (putCustomer id b t af qf).resp.status = 400 ∧
      (putCustomer id b t af qf).resp.body
        = errorsBody (runRules putCustomerRules { params := [("id", id)], body := b })) ∧
    (runRules postAgentRules { params := [], body := b } ≠ [] →
      (postAgent b t newId af qf).resp.status = 400 ∧
      (postAgent b t newId af qf).resp.body
        = errorsBody (runRules postAgentRules { params := [], body := b })) ∧
    (∀ (rules : List Rule) (req : Request), ∀ r ∈ rules, ∀ e ∈ ruleErrors req r,
      e ∈ runRules rules req) := by
  refine ⟨fun h => ?_, fun h => ?_, fun h => ?_, fun h => ?_, ?_⟩
  · constructor <;> simp [postCustomer, isEmpty_false_of_ne h]
  · constructor <;> simp [patchCustomer, isEmpty_false_of_ne h]
  · constructor <;> simp [putCustomer, isEmpty_false_of_ne h]
  · constructor <;> simp [postAgent, isEmpty_false_of_ne h]
  · intro rules req r hr e he
    unfold runRules
    exact List.mem_flatMap.mpr ⟨r, hr, he⟩

/-- Witness for C4: the empty body violates the chains of all nine
required fields of `POST /customer` (two errors each, eighteen in all),
and the 400 body lists them all. -/
theorem c4_all_violations_reported_witness :
    runRules postCustomerRules { params := [], body := ([] : JsObj) } ≠ [] ∧
    (runRules postCustomerRules { params := [], body := ([] : JsObj) }).length = 18 ∧
    ((postCustomer [] [] 0 false false).resp.status = 400 ∧
     (postCustomer [] [] 0 false false).resp.body
       = errorsBody (runRules postCustomerRules { params := [], body := ([] : JsObj) })) := by
  have h := c4_all_violations_reported "X" [] [] 0 false false
  exact ⟨by decide, by decide, h.1 (by decide)⟩

/-- C5: for PATCH, PUT and DELETE on `/customer/:id`, when validation
passes (where consulted) and no driver error occurs, the response is
404 exactly when the statement's affected-row count is zero and 200
with the confirmation message exactly when it is one or more. -/
theorem c5_affected_rows_status (id : String) (b : JsObj) (t : Table) :
    (runRules patchCustomerRules { params := [("id", id)], body := b } = [] →
      ((patchCustomer id b t false false).resp.status = 404 ↔ patchAffected id b t = 0) ∧
      ((patchCustomer id b t false false).resp.status = 200 ↔ 1 ≤ patchAffected id b t) ∧
      (1 ≤ patchAffected id b t →
        jsonLookup (patchCustomer id b t false false).resp.body "message"
          = JsValue.vStr "Customer updated successfully!")) ∧
    (runRules putCustomerRules { params := [("id", id)], body := b } = [] →
      ((putCustomer id b t false false).resp.status = 404 ↔ putAffected id b t = 0) ∧
      ((putCustomer id b t false false).resp.status = 200 ↔ 1 ≤ putAffected id b t) ∧
      (1 ≤ putAffected id b t →
        jsonLookup (putCustomer id b t false false).resp.body "message"
          = JsValue.vStr "Customer replaced successfully!")) ∧
    (((deleteCustomer id t false false).resp.status = 404 ↔ deleteAffected id t = 0) ∧
     ((deleteCustomer id t false false).resp.status = 200 ↔ 1 ≤ deleteAffected id t) ∧
     (1 ≤ deleteAffected id t →
       jsonLookup (deleteCustomer id t false false).resp.body "message"
         = JsValue.vStr "Customer deleted successfully!")) := by
  refine ⟨fun h => ?_, fun h => ?_, ?_⟩
  · by_cases h0 : (sqlUpdate "CUST_CODE" (SqlValue.sStr id) (patchAsgs b) t).2 = 0
    · simp [patchCustomer, isEmpty_true_of_eq h, patchAffected, h0]
    · simp [patchCustomer, isEmpty_true_of_eq h, patchAffected, h0, jsonLookup, bodyGet]
      omega
  · by_cases h0 : (sqlUpdate "CUST_CODE" (SqlValue.sStr id) (putAsgs b) t).2 = 0
    · simp [putCustomer, isEmpty_true_of_eq h, putAffected, h0]
    · simp [putCustomer, isEmpty_true_of_eq h, putAffected, h0, jsonLookup, bodyGet]
      omega
  · by_cases h0 : (sqlDelete "CUST_CODE" (SqlValue.sStr id) t).2 = 0
    · simp [deleteCustomer, deleteAffected, h0]
    · simp [deleteCustomer, deleteAffected, h0, jsonLookup, bodyGet]
      omega

/-- Witness for C5: on a one-row table keyed "C001", a valid PATCH of
that key affects one row and yields 200 with the confirmation message,
while a DELETE of a missing key affects zero rows and yields 404. -/
theorem c5_affected_rows_status_witness :
    (patchCustomer "C001" sampleCustomerBody
      [[("CUST_CODE", SqlValue.sStr "C001"), ("CUST_CITY", SqlValue.sStr "Boston")]]
      false false).resp.status = 200 ∧
    jsonLookup (patchCustomer "C001" sampleCustomerBody
      [[("CUST_CODE", SqlValue.sStr "C001"), ("CUST_CITY", SqlValue.sStr "Boston")]]
      false false).resp.body "message" = JsValue.vStr "Customer updated successfully!" ∧
    (deleteCustomer "missing"
      [[("CUST_CODE", SqlValue.sStr "C001"), ("CUST_CITY", SqlValue.sStr "Boston")]]
      false false).resp.status = 404 := by
  have h := c5_affected_rows_status "C001" sampleCustomerBody
    [[("CUST_CODE", SqlValue.sStr "C001"), ("CUST_CITY", SqlValue.sStr "Boston")]]
  have h1 := h.1 (by decide)
  have h2 := c5_affected_rows_status "missing" sampleCustomerBody
    [[("CUST_CODE", SqlValue.sStr "C001"), ("CUST_CITY", SqlValue.sStr "Boston")]]
  exact ⟨h1.2.1.mpr (by decide), h1.2.2 (by decide), h2.2.2.1.mpr (by decide)⟩

/-- C7: a PATCH or PUT whose path key matches no row of the table
(validation passing, no driver failure) answers 404 and leaves the
table exactly as it was — no row created, none modified. -/
theorem c7_update_missing_key (id : String) (b : JsObj) (t : Table)
    (hfresh : ∀ r ∈ t, rowKeyIs "CUST_CODE" (SqlValue.sStr id) r = false) :
    (runRules patchCustomerRules { params := [("id", id)], body := b } = [] →
      (patchCustomer id b t false false).resp.status = 404 ∧
      (patchCustomer id b t false false).table = t) ∧
    (runRules putCustomerRules { params := [("id", id)], body := b } = [] →
      (putCustomer id b t false false).resp.status = 404 ∧
      (putCustomer id b t false false).table = t) := by
  constructor
  · intro h
    have hu := sqlUpdate_no_match "CUST_CODE" (SqlValue.sStr id) (patchAsgs b) t hfresh
    simp [patchCustomer, isEmpty_true_of_eq h, hu]
  · intro h
    have hu := sqlUpdate_no_match "CUST_CODE" (SqlValue.sStr id) (putAsgs b) t hfresh
    simp [putCustomer, isEmpty_true_of_eq h, hu]

/-- Witness for C7: PATCH and PUT of key "C999" on a one-row table
keyed "C001" answer 404 and leave the table unchanged. -/
theorem c7_update_missing_key_witness :
    (patchCustomer "C999" sampleCustomerBody
      [[("CUST_CODE", SqlValue.sStr "C001"), ("CUST_CITY", SqlValue.sStr "NY")]]
      false false).resp.status = 404 ∧
    (patchCustomer "C999" sampleCustomerBody
      [[("CUST_CODE", SqlValue.sStr "C001"), ("CUST_CITY", SqlValue.sStr "NY")]]
      false false).table
      = [[("CUST_CODE", SqlValue.sStr "C001"), ("CUST_CITY", SqlValue.sStr "NY")]] ∧
    (putCustomer "C999" sampleCustomerBody
      [[("CUST_CODE", SqlValue.sStr "C001"), ("CUST_CITY", SqlValue.sStr "NY")]]
      false false).resp.status = 404 := by
  have h := c7_update_missing_key "C999" sampleCustomerBody
    [[("CUST_CODE", SqlValue.sStr "C001"), ("CUST_CITY", SqlValue.sStr "NY")]]
    (by decide)
  have h1 := h.1 (by decide)
  have h2 := h.2 (by decide)
  exact ⟨h1.1, h1.2, h2.1⟩

theorem patchCustomer_table (id : String) (b : JsObj) (t : Table) (af qf : Bool) :
    (patchCustomer id b t af qf).table = t ∨
    (patchCustomer id b t af qf).table
      = t.map (fun r => if rowKeyIs "CUST_CODE" (SqlValue.sStr id) r
                        then setCols (patchAsgs b) r else r) := by
  by_cases hv : (runRules patchCustomerRules { params := [("id", id)], body := b }).isEmpty = true
  · simp only [patchCustomer, acquireFailOut, queryFailOut]
    rw [if_pos hv]
    by_cases haf : af = true
    · rw [if_pos haf]
      exact Or.inl rfl
    · rw [if_neg haf]
      by_cases hqf : qf = true
      · rw [if_pos hqf]
        exact Or.inl rfl
      · rw [if_neg hqf]
        right
        split <;> rfl
  · simp only [patchCustomer]
    rw [if_neg hv]
    exact Or.inl rfl

theorem alookup_patchAsgs_untouched (b : JsObj) (c : String)
    (hc : c ∈ patchUntouchedCols) : alookup (patchAsgs b) c = none := by
  fin_cases hc <;> rfl

theorem alookup_patchAsgs_set (b : JsObj) (c : String) (hc : c ∈ patchSetCols) :
    alookup (patchAsgs b) c = some (jsToSql (bodyGet b c)) := by
  fin_cases hc <;> rfl

theorem patchCustomer_table_valid (id : String) (b : JsObj) (t : Table)
    (hv : runRules patchCustomerRules { params := [("id", id)], body := b } = []) :
    (patchCustomer id b t false false).table
      = t.map (fun r => if rowKeyIs "CUST_CODE" (SqlValue.sStr id) r
                        then setCols (patchAsgs b) r else r) := by
  simp only [patchCustomer]
  rw [if_pos (isEmpty_true_of_eq hv)]
  simp only [Bool.false_eq_true, if_false]
  split <;> rfl

/-- C1 counterexample: the table holds one customer with
`CUST_COUNTRY = "US"`; a `PATCH /customer/C001` whose body carries only
`CUST_CITY` answers 200, yet `CUST_COUNTRY` — not named in the request
body — has been overwritten with NULL, because the PATCH statement
binds all seven SET columns and absent fields bind as NULL. -/
theorem c1_counterexample :
    (patchCustomer "C001" [("CUST_CITY", JsValue.vStr "LA")]
      [[("CUST_CODE", SqlValue.sStr "C001"), ("CUST_NAME", SqlValue.sStr "Acme"),
        ("CUST_CITY", SqlValue.sStr "NY"), ("CUST_COUNTRY", SqlValue.sStr "US")]]
      false false).resp.status = 200 ∧
    (patchCustomer "C001" [("CUST_CITY", JsValue.vStr "LA")]
      [[("CUST_CODE", SqlValue.sStr "C001"), ("CUST_NAME", SqlValue.sStr "Acme"),
        ("CUST_CITY", SqlValue.sStr "NY"), ("CUST_COUNTRY", SqlValue.sStr "US")]]
      false false).table
      = [[("CUST_CODE", SqlValue.sStr "C001"), ("CUST_NAME", SqlValue.sStr "Acme"),
          ("CUST_CITY", SqlValue.sStr "LA"), ("CUST_COUNTRY", SqlValue.sNull)]] :=
  ⟨rfl, rfl⟩

/-- C1 (amended): PATCH is not a partial update.  The row count is
preserved, and only the columns outside its fixed SET list —
`CUST_CODE`, `CUST_NAME`, `WORKING_AREA`, `PHONE_NO`, `AGENT_CODE` —
are guaranteed unchanged on every row.  When validation passes and no
driver failure occurs: a request whose key matches at least one row
(driver `affectedRows` at least 1, matched-rows counting) answers 200;
and on every matched row every present SET-list column is overwritten
with the bound value of the corresponding body field — in particular
with NULL whenever that field is absent from the request body. -/
theorem c1_patch_frame_amended (id : String) (b : JsObj) (t : Table) (af qf : Bool) :
    ((patchCustomer id b t af qf).table.length = t.length ∧
     ∀ (i : Nat) (c : String), c ∈ patchUntouchedCols →
       ((patchCustomer id b t af qf).table[i]?).map (fun r => rowLookup r c)
         = (t[i]?).map (fun r => rowLookup r c)) ∧
    (runRules patchCustomerRules { params := [("id", id)], body := b } = [] →
      (1 ≤ patchAffected id b t →
        (patchCustomer id b t false false).resp.status = 200) ∧
      (∀ (i : Nat) (r r' : Row), t[i]? = some r →
        (patchCustomer id b t false false).table[i]? = some r' →
        rowKeyIs "CUST_CODE" (SqlValue.sStr id) r = true →
        ∀ c ∈ patchSetCols, c ∈ r.map Prod.fst →
          rowLookup r' c = jsToSql (bodyGet b c)) ∧
      (∀ (i : Nat) (r r' : Row), t[i]? = some r →
        (patchCustomer id b t false false).table[i]? = some r' →
        rowKeyIs "CUST_CODE" (SqlValue.sStr id) r = true →
        ∀ c ∈ patchSetCols, c ∈ r.map Prod.fst → bodyGet b c = JsValue.vUndefined →
          rowLookup r' c = SqlValue.sNull)) := by
  constructor
  · rcases patchCustomer_table id b t af qf with hT | hT <;> rw [hT]
    · exact ⟨rfl, fun i c hc => rfl⟩
    · refine ⟨List.length_map _ _, fun i c hc => ?_⟩
      have ha := alookup_patchAsgs_untouched b c hc
      rw [List.getElem?_map]
      cases h : t[i]? with
      | none => rfl
      | some r =>
        by_cases hk : rowKeyIs "CUST_CODE" (SqlValue.sStr id) r = true
        · simp [hk, rowLookup_setCols _ _ _ ha]
        · simp [hk]
  · intro hv
    have hrow : ∀ (i : Nat) (r r' : Row), t[i]? = some r →
        (patchCustomer id b t false false).table[i]? = some r' →
        rowKeyIs "CUST_CODE" (SqlValue.sStr id) r = true →
        ∀ c ∈ patchSetCols, c ∈ r.map Prod.fst →
          rowLookup r' c = jsToSql (bodyGet b c) := by
      intro i r r' hr hr' hk c hcSet hcMem
      rw [patchCustomer_table_valid id b t hv, List.getElem?_map, hr] at hr'
      have hr'' : r' = setCols (patchAsgs b) r := by
        simp only [Option.map_some'] at hr'
        rw [if_pos hk] at hr'
        exact (Option.some.inj hr').symm
      rw [hr'']
      exact rowLookup_setCols_mem _ _ _ _ (alookup_patchAsgs_set b c hcSet) hcMem
    refine ⟨?_, hrow, ?_⟩
    · intro hge
      have h0 : ¬ (sqlUpdate "CUST_CODE" (SqlValue.sStr id) (patchAsgs b) t).2 = 0 := by
        unfold patchAffected at hge
        omega
      simp [patchCustomer, isEmpty_true_of_eq hv, h0]
    · intro i r r' hr hr' hk c hcSet hcMem hbu
      rw [hrow i r r' hr hr' hk c hcSet hcMem, hbu]
      rfl

/-- Witness for the amended C1: the counterexample's PATCH (body names
only `CUST_CITY`) answers 200, leaves `CUST_NAME` — a column outside
the SET list — intact on the only row, and overwrites that row's
`CUST_COUNTRY` — a SET-list column absent from the body — with NULL. -/
theorem c1_patch_frame_amended_witness :
    (patchCustomer "C001" [("CUST_CITY", JsValue.vStr "LA")]
      [[("CUST_CODE", SqlValue.sStr "C001"), ("CUST_NAME", SqlValue.sStr "Acme"),
        ("CUST_CITY", SqlValue.sStr "NY"), ("CUST_COUNTRY", SqlValue.sStr "US")]]
      false false).table.length = 1 ∧
    (((patchCustomer "C001" [("CUST_CITY", JsValue.vStr "LA")]
      [[("CUST_CODE", SqlValue.sStr "C001"), ("CUST_NAME", SqlValue.sStr "Acme"),
        ("CUST_CITY", SqlValue.sStr "NY"), ("CUST_COUNTRY", SqlValue.sStr "US")]]
      false false).table[0]?).map (fun r => rowLookup r "CUST_NAME"))
      = some (SqlValue.sStr "Acme") ∧
    (patchCustomer "C001" [("CUST_CITY", JsValue.vStr "LA")]
      [[("CUST_CODE", SqlValue.sStr "C001"), ("CUST_NAME", SqlValue.sStr "Acme"),
        ("CUST_CITY", SqlValue.sStr "NY"), ("CUST_COUNTRY", SqlValue.sStr "US")]]
      false false).resp.status = 200 ∧
    (∀ r' : Row,
      (patchCustomer "C001" [("CUST_CITY", JsValue.vStr "LA")]
        [[("CUST_CODE", SqlValue.sStr "C001"), ("CUST_NAME", SqlValue.sStr "Acme"),
          ("CUST_CITY", SqlValue.sStr "NY"), ("CUST_COUNTRY", SqlValue.sStr "US")]]
        false false).table[0]? = some r' →
      rowLookup r' "CUST_COUNTRY" = SqlValue.sNull) := by
  have h := c1_patch_frame_amended "C001" [("CUST_CITY", JsValue.vStr "LA")]
    [[("CUST_CODE", SqlValue.sStr "C001"), ("CUST_NAME", SqlValue.sStr "Acme"),
      ("CUST_CITY", SqlValue.sStr "NY"), ("CUST_COUNTRY", SqlValue.sStr "US")]]
    false false
  have h2 := h.2 (by decide)
  refine ⟨h.1.1, ?_, h2.1 (by decide), ?_⟩
  · rw [h.1.2 0 "CUST_NAME" (by decide)]
    rfl
  · intro r' hr'
    exact h2.2.2 0 _ r' rfl hr' (by decide) "CUST_COUNTRY" (by decide) (by decide) rfl

theorem jsonLookup_rowToJson_mapCols (cols : List String) (f : String → SqlValue)
    (c : String) (hc : c ∈ cols) :
    jsonLookup (rowToJson (cols.map (fun x => (x, f x)))) c = sqlToJson (f c) := by
  unfold rowToJson jsonLookup
  rw [List.map_map]
  exact bodyGet_mapCols cols (fun x => sqlToJson (f x)) c hc

/-- C8: a valid `POST /customer` into a table where the submitted key
is fresh answers 201, and a subsequent `GET /customer/:id` by that key
answers 200 with exactly the inserted record: every column of the
response equals the submitted value (as bound and fetched). -/
theorem c8_create_then_read (b : JsObj) (t : Table) (code : String) (newId : Nat)
    (hval : runRules postCustomerRules { params := [], body := b } = [])
    (hcode : bodyGet b "CUST_CODE" = JsValue.vStr code)
    (hfresh : ∀ r ∈ t, rowKeyIs "CUST_CODE" (SqlValue.sStr code) r = false) :
    (postCustomer b t newId false false).resp.status = 201 ∧
    (getCustomer code (postCustomer b t newId false false).table false false).resp.status = 200 ∧
    (getCustomer code (postCustomer b t newId false false).table false false).resp.body
      = rowToJson (postCustomerRow b) ∧
    ∀ c ∈ customerCols,
      jsonLookup (getCustomer code (postCustomer b t newId false false).table
        false false).resp.body c = sqlToJson (jsToSql (bodyGet b c)) := by
  have hkey : rowLookup (postCustomerRow b) "CUST_CODE" = SqlValue.sStr code := by
    unfold postCustomerRow
    rw [rowLookup_mapCols _ _ _ (by decide), hcode]
    rfl
  have hany : t.any (rowKeyIs "CUST_CODE" (SqlValue.sStr code)) = false := by
    rw [List.any_eq_false]
    intro r hr
    simp [hfresh r hr]
  have hins : sqlInsert "CUST_CODE" (postCustomerRow b) t
      = Except.ok (t ++ [postCustomerRow b]) := by
    unfold sqlInsert
    rw [hkey]
    show (if t.any (rowKeyIs "CUST_CODE" (SqlValue.sStr code)) then Except.error ()
          else Except.ok (t ++ [postCustomerRow b])) = _
    rw [hany]
    rfl
  have hsel : sqlSelect "CUST_CODE" (SqlValue.sStr code) (t ++ [postCustomerRow b])
      = [postCustomerRow b] := by
    unfold sqlSelect
    rw [List.filter_append]
    have h1 : t.filter (fun r => rowKeyIs "CUST_CODE" (SqlValue.sStr code) r) = [] := by
      rw [List.filter_eq_nil_iff]
      intro r hr
      simp [hfresh r hr]
    have h2 : [postCustomerRow b].filter
        (fun r => rowKeyIs "CUST_CODE" (SqlValue.sStr code) r) = [postCustomerRow b] := by
      simp [List.filter, rowKeyIs, hkey, sqlEq]
    rw [h1, h2]
    rfl
  have hB : (getCustomer code (postCustomer b t newId false false).table
      false false).resp.body = rowToJson (postCustomerRow b) := by
    simp [postCustomer, hval, hins, getCustomer, hsel]
  refine ⟨?_, ?_, hB, ?_⟩
  · simp [postCustomer, hval, hins]
  · simp [postCustomer, hval, hins, getCustomer, hsel]
  · intro c hc
    rw [hB]
    exact jsonLookup_rowToJson_mapCols customerCols (fun x => jsToSql (bodyGet b x)) c hc

/-- Witness for C8: the spec's concrete scenario — insert "C001"/"Acme"
into an empty table, then read it back. -/
theorem c8_create_then_read_witness :
    (postCustomer sampleCustomerBody [] 0 false false).resp.status = 201 ∧
    (getCustomer "C001" (postCustomer sampleCustomerBody [] 0 false false).table
      false false).resp.status = 200 ∧
    jsonLookup (getCustomer "C001" (postCustomer sampleCustomerBody [] 0 false false).table
      false false).resp.body "CUST_NAME" = JsValue.vStr "Acme" := by
  have h := c8_create_then_read sampleCustomerBody [] "C001" 0 (by decide) rfl
    (by intro r hr; cases hr)
  refine ⟨h.1, h.2.1, ?_⟩
  rw [h.2.2.2 "CUST_NAME" (by decide)]
  rfl

/-- C2 counterexample: a successful `POST /agent` whose driver-reported
`insertId` is 2^53 + 1 answers 201, but the body passed to `res.json`
carries that identifier as the raw BigInt (no handler on this route
converts it), not as a decimal-digit string — at runtime the JSON
serialization of a BigInt then fails outright, so no response ever
delivers the digit string the claim requires. -/
theorem c2_counterexample :
    (2 : Nat) ^ 53 < 9007199254740993 ∧
    (postAgent [("AGENT_CODE", JsValue.vStr "A1"), ("AGENT_NAME", JsValue.vStr "Bob")]
      [] 9007199254740993 false false).resp.status = 201 ∧
    jsonLookup (jsonLookup (postAgent
      [("AGENT_CODE", JsValue.vStr "A1"), ("AGENT_NAME", JsValue.vStr "Bob")]
      [] 9007199254740993 false false).resp.body "result") "insertId"
      = JsValue.vBigInt 9007199254740993 ∧
    (jsonLookup (jsonLookup (postAgent
      [("AGENT_CODE", JsValue.vStr "A1"), ("AGENT_NAME", JsValue.vStr "Bob")]
      [] 9007199254740993 false false).resp.body "result") "insertId").isStr = false :=
  ⟨by norm_num, rfl, rfl, rfl⟩

/-- C2 (amended): `POST /customer` (server.js) formats the
driver-reported `insertId` into its exact decimal-digit string before
responding — the string decodes back to the exact value and consists of
digit characters only — while `POST /agent` places the raw driver
result in the 201 body, leaving `insertId` an unconverted BigInt. -/
theorem c2_bigint_serialization_amended (b : JsObj) (t : Table) (newId : Nat)
    (t2 t3 : Table) :
    (runRules postCustomerRules { params := [], body := b } = [] →
     sqlInsert "CUST_CODE" (postCustomerRow b) t = Except.ok t2 →
      ((postCustomer b t newId false false).resp.status = 201 ∧
       jsonLookup (jsonLookup (postCustomer b t newId false false).resp.body "result")
         "insertId" = JsValue.vStr (decStr newId) ∧
       decodeDecL (decList newId) = newId ∧
       (∀ c ∈ decList newId, 48 ≤ c.toNat ∧ c.toNat ≤ 57))) ∧
    (runRules postAgentRules { params := [], body := b } = [] →
     sqlInsert "AGENT_CODE" (postAgentRow b) t = Except.ok t3 →
      ((postAgent b t newId false false).resp.status = 201 ∧
       jsonLookup (jsonLookup (postAgent b t newId false false).resp.body "result")
         "insertId" = JsValue.vBigInt newId ∧
       (jsonLookup (jsonLookup (postAgent b t newId false false).resp.body "result")
         "insertId").isStr = false)) := by
  constructor
  · intro hv hok
    refine ⟨?_, ?_, decodeDecL_decList newId, decList_digits newId⟩
    · simp [postCustomer, hv, hok]
    · simp [postCustomer, hv, hok, jsonLookup, bodyGet, postCustomerFormatted]
  · intro hv hok
    refine ⟨?_, ?_, ?_⟩
    · simp [postAgent, hv, hok]
    · simp [postAgent, hv, hok, jsonLookup, bodyGet, resultToJs]
    · simp [postAgent, hv, hok, jsonLookup, bodyGet, resultToJs, JsValue.isStr]

/-- Witness for the amended C2: one payload valid for both routes,
inserted into the empty table with driver id 2^53 + 1. -/
theorem c2_bigint_serialization_amended_witness :
    ((postCustomer sampleCombinedBody [] 9007199254740993 false false).resp.status = 201 ∧
     jsonLookup (jsonLookup (postCustomer sampleCombinedBody [] 9007199254740993
       false false).resp.body "result") "insertId"
       = JsValue.vStr (decStr 9007199254740993) ∧
     decodeDecL (decList 9007199254740993) = 9007199254740993 ∧
     (∀ c ∈ decList 9007199254740993, 48 ≤ c.toNat ∧ c.toNat ≤ 57)) ∧
    ((postAgent sampleCombinedBody [] 9007199254740993 false false).resp.status = 201 ∧
     jsonLookup (jsonLookup (postAgent sampleCombinedBody [] 9007199254740993
       false false).resp.body "result") "insertId"
       = JsValue.vBigInt 9007199254740993 ∧
     (jsonLookup (jsonLookup (postAgent sampleCombinedBody [] 9007199254740993
       false false).resp.body "result") "insertId").isStr = false) := by
  have h := c2_bigint_serialization_amended sampleCombinedBody [] 9007199254740993
    [postCustomerRow sampleCombinedBody] [postAgentRow sampleCombinedBody]
  exact ⟨h.1 (by decide) rfl, h.2 (by decide) rfl⟩

/-- C9 counterexample: with one customer whose city is "X" and the path
parameter "%", no customer's city contains "%" as a substring — the
claim then demands 404 — yet the route answers 200, because "%" is
spliced into the LIKE pattern where it acts as a wildcard matching
every non-null city. -/
theorem c9_counterexample :
    specCitySubstrRows "%"
      [[("CUST_CODE", SqlValue.sStr "C1"), ("CUST_CITY", SqlValue.sStr "X")]] = [] ∧
    (getCustomersByCity "%"
      [[("CUST_CODE", SqlValue.sStr "C1"), ("CUST_CITY", SqlValue.sStr "X")]]
      false false).resp.status = 200 := by
  constructor
  · decide
  · have h1 : likeMatch (cityPattern "%") "X".data = true := by
      show likeMatch ['%', '%', '%'] ['X'] = true
      rw [likeMatch_pct_cons, likeMatch_pct_cons, likeMatch_all_pct]
      simp
    have h2 : cityLikeRows "%"
        [[("CUST_CODE", SqlValue.sStr "C1"), ("CUST_CITY", SqlValue.sStr "X")]]
        = [[("CUST_CODE", SqlValue.sStr "C1"), ("CUST_CITY", SqlValue.sStr "X")]] := by
      unfold cityLikeRows
      simp [List.filter, rowLookup, h1]
    simp [getCustomersByCity, h2]

/-- C9 (amended): the city route matches `CUST_CITY` with SQL LIKE
against `%escape(trim(city))%`: 404 exactly when no non-null city
matches, 200 with exactly the matching rows otherwise; and whenever the
sanitized parameter contains no LIKE wildcard (`%`, `_`), the matching
rows are exactly the customers whose city contains the sanitized —
trimmed and HTML-escaped — parameter as a case-exact substring. -/
theorem c9_city_like_amended (city : String) (t : Table) :
    ((getCustomersByCity city t false false).resp.status
       = if cityLikeRows city t = [] then 404 else 200) ∧
    ((getCustomersByCity city t false false).resp.body
       = if cityLikeRows city t = []
         then JsValue.vObj [("message", JsValue.vStr "No customers found in this city")]
         else JsValue.vArr ((cityLikeRows city t).map rowToJson)) ∧
    ((∀ c ∈ sanitizeCity city, c ≠ '%' ∧ c ≠ '_') →
      cityLikeRows city t = specCitySubstrRows (String.mk (sanitizeCity city)) t) := by
  refine ⟨?_, ?_, fun hwf => ?_⟩
  · by_cases h : cityLikeRows city t = [] <;>
      simp [getCustomersByCity, isEmpty_true_of_eq, isEmpty_false_of_ne, h]
  · by_cases h : cityLikeRows city t = [] <;>
      simp [getCustomersByCity, isEmpty_true_of_eq, isEmpty_false_of_ne, h]
  · unfold cityLikeRows specCitySubstrRows
    apply List.filter_congr
    intro r hr
    cases hcv : rowLookup r "CUST_CITY" with
    | sNull => rfl
    | sNum n => rfl
    | sStr s =>
      show likeMatch (cityPattern city) s.data
        = occursIn (String.mk (sanitizeCity city)).data s.data
      have hiff := likeMatch_substr (sanitizeCity city) hwf s.data
      cases ho : occursIn (sanitizeCity city) s.data with
      | true => exact hiff.mpr ho
      | false =>
        cases hl : likeMatch (cityPattern city) s.data with
        | false => rfl
        | true =>
          have hx := hiff.mp hl
          rw [ho] at hx
          exact absurd hx (by decide)

/-- Witness for the amended C9: parameter "NY" on the empty table —
the sanitized parameter is wildcard-free, no row matches, the route
answers 404, and the LIKE rows coincide with the substring rows. -/
theorem c9_city_like_amended_witness :
    (getCustomersByCity "NY" [] false false).resp.status = 404 ∧
    cityLikeRows "NY" [] = specCitySubstrRows (String.mk (sanitizeCity "NY")) [] := by
  have h := c9_city_like_amended "NY" []
  exact ⟨h.1, h.2.2 (by decide)⟩

/-- C10: `handleBigInt` returns the object with every top-level BigInt
property replaced by its exact decimal string (the string decodes back
to the same value), every non-BigInt property unchanged — nested
objects in particular are not traversed — and no property added or
removed. -/
theorem c10_handleBigInt_spec (o : List (String × JsValue)) :
    (∀ (k : String) (n : Int), (k, JsValue.vBigInt n) ∈ o →
       (k, JsValue.vStr (jsBigIntToString n)) ∈ handleBigInt o ∧
       jsBigIntDecode (jsBigIntToString n) = n) ∧
    (∀ (k : String) (v : JsValue), (k, v) ∈ o → (∀ n : Int, v ≠ JsValue.vBigInt n) →
       (k, v) ∈ handleBigInt o) ∧
    (∀ (k : String) (fs : List (String × JsValue)), (k, JsValue.vObj fs) ∈ o →
       (k, JsValue.vObj fs) ∈ handleBigInt o) ∧
    (handleBigInt o).length = o.length := by
  refine ⟨?_, ?_, ?_, List.length_map _ _⟩
  · intro k n hk
    refine ⟨?_, jsBigIntDecode_toString n⟩
    unfold handleBigInt
    exact List.mem_map.mpr ⟨(k, JsValue.vBigInt n), hk, rfl⟩
  · intro k v hk hv
    unfold handleBigInt
    refine List.mem_map.mpr ⟨(k, v), hk, ?_⟩
    cases v <;> first | rfl | exact absurd rfl (hv _)
  · intro k fs hk
    unfold handleBigInt
    exact List.mem_map.mpr ⟨(k, JsValue.vObj fs), hk, rfl⟩

/-- Witness for C10: an object with a BigInt id beyond 2^53, a string
property, and a nested object holding a BigInt: the id becomes its
exact decimal string, the string survives unchanged, and the nested
object is untouched. -/
theorem c10_handleBigInt_spec_witness :
    ("id", JsValue.vStr (jsBigIntToString 9007199254740993)) ∈ handleBigInt
      [("id", JsValue.vBigInt 9007199254740993), ("name", JsValue.vStr "x"),
       ("inner", JsValue.vObj [("k", JsValue.vBigInt 5)])] ∧
    jsBigIntDecode (jsBigIntToString 9007199254740993) = 9007199254740993 ∧
    ("name", JsValue.vStr "x") ∈ handleBigInt
      [("id", JsValue.vBigInt 9007199254740993), ("name", JsValue.vStr "x"),
       ("inner", JsValue.vObj [("k", JsValue.vBigInt 5)])] ∧
    ("inner", JsValue.vObj [("k", JsValue.vBigInt 5)]) ∈ handleBigInt
      [("id", JsValue.vBigInt 9007199254740993), ("name", JsValue.vStr "x"),
       ("inner", JsValue.vObj [("k", JsValue.vBigInt 5)])] := by
  have h := c10_handleBigInt_spec
    [("id", JsValue.vBigInt 9007199254740993), ("name", JsValue.vStr "x"),
     ("inner", JsValue.vObj [("k", JsValue.vBigInt 5)])]
  have h1 := h.1 "id" 9007199254740993 (List.mem_cons_self _ _)
  have h2 := h.2.1 "name" (JsValue.vStr "x")
    (List.mem_cons_of_mem _ (List.mem_cons_self _ _))
    (fun n hn => JsValue.noConfusion hn)
  have h3 := h.2.2.1 "inner" [("k", JsValue.vBigInt 5)]
    (List.mem_cons_of_mem _ (List.mem_cons_of_mem _ (List.mem_cons_self _ _)))
  exact ⟨h1.1, h1.2, h2, h3⟩

end A6
